import Mathlib

/-!
Shallow embedding of `platform/FileHandle.h` from the mbed library: the
`FileHandle` capability interface with its inline default method bodies, and
the `FileHandleDeviceWakeHelper` blocking adapter.  Poll masks are
natural-number bitmasks; virtual methods supplied by subclasses or by the
underlying device are function parameters.  Method bodies that live in a
translation unit outside the headers are modelled from the spec and marked as
such in their doc comments.
-/

namespace Mbed

/-- Poll event bit: data may be read.  `mbed_poll.h` is not among the sources;
the event constants are modelled as distinct single bits in the POSIX layout.
Every property below depends only on bit membership, never on the numeric
values. -/
def POLLIN : Nat := 0x001

/-- Poll event bit: data may be written. -/
def POLLOUT : Nat := 0x004

/-- Poll event bit: error condition. -/
def POLLERR : Nat := 0x008

/-- Poll event bit: hangup / disconnect. -/
def POLLHUP : Nat := 0x010

/-- Poll event bit: invalid request. -/
def POLLNVAL : Nat := 0x020

/-- POSIX `EAGAIN` errno value; `-EAGAIN` is the not-ready sentinel used
throughout `FileHandle.h`. -/
def EAGAIN : Int := 11

/-- Seek origin: `SEEK_SET` / `SEEK_CUR` / `SEEK_END` from `cstdio`. -/
inductive Whence
  | seekSet
  | seekCur
  | seekEnd

/-- Subclass-supplied virtual methods of a `FileHandle` that the inline default
method bodies in `FileHandle.h` delegate to: `seek` maps an offset and origin
to the resulting file position (or a negative error); `sync` and `size` are
the values this handle's `sync()` and `size()` virtuals return. -/
structure FileHandleVirtuals where
  seek : Int → Whence → Int
  sync : Int
  size : Int

namespace FileHandle

/-- `FileHandle::tell` (FileHandle.h:121): `return seek(0, SEEK_CUR);`. -/
def tell (fh : FileHandleVirtuals) : Int :=
  fh.seek 0 Whence.seekCur

/-- `FileHandle::rewind` (FileHandle.h:130): `seek(0, SEEK_SET);` with the
result discarded; the method returns `void`. -/
def rewind (fh : FileHandleVirtuals) : Unit :=
  let _ := fh.seek 0 Whence.seekSet
  ()

/-- `FileHandle::lseek` (FileHandle.h:152): `return seek(offset, whence);`. -/
def lseek (fh : FileHandleVirtuals) (offset : Int) (whence : Whence) : Int :=
  fh.seek offset whence

/-- `FileHandle::fsync` (FileHandle.h:165): `return sync();`. -/
def fsync (fh : FileHandleVirtuals) : Int :=
  fh.sync

/-- `FileHandle::flen` (FileHandle.h:176): `return size();`. -/
def flen (fh : FileHandleVirtuals) : Int :=
  fh.size

/-- Default body of `FileHandle::set_blocking` (FileHandle.h:190):
`return -1;` for every argument. -/
def set_blocking_default (_blocking : Bool) : Int :=
  -1

/-- Default body of `FileHandle::poll` (FileHandle.h:205):
`return POLLIN | POLLOUT;`, ignoring the requested `events`. -/
def poll_default (_events : Nat) : Nat :=
  POLLIN ||| POLLOUT

/-- `FileHandle::writable` (FileHandle.h:239): `return poll(POLLOUT) & POLLOUT;`
truncated to `bool`; `poll` is this handle's virtual poll method. -/
def writable (poll : Nat → Nat) : Bool :=
  (poll POLLOUT &&& POLLOUT) != 0

/-- `FileHandle::readable` (FileHandle.h:250): `return poll(POLLIN) & POLLIN;`
truncated to `bool`. -/
def readable (poll : Nat → Nat) : Bool :=
  (poll POLLIN &&& POLLIN) != 0

end FileHandle

/-- State of a `FileHandleDeviceWakeHelper` (FileHandle.h:449-455): the
blocking flag `_blocking`, the armed single-shot mask `_poll_wake_events`, and
whether a callback is registered in `_sigio_cb` (the callback body itself is
irrelevant here; only registration and invocation counts matter). -/
structure WakeHelperState where
  blocking : Bool
  poll_wake_events : Nat
  sigio_cb : Bool

namespace FileHandleDeviceWakeHelper

/-- Constructor (FileHandle.h:383):
`FileHandleDeviceWakeHelper() : _blocking(true), _poll_wake_events(0) { }`,
with `_sigio_cb` a default-constructed (empty) `Callback`. -/
def construct : WakeHelperState :=
  { blocking := true, poll_wake_events := 0, sigio_cb := false }

/-- `FileHandleDeviceWakeHelper::set_blocking` (FileHandle.h:325):
`{ _blocking = blocking; return 0; }`. -/
def set_blocking (st : WakeHelperState) (b : Bool) : WakeHelperState × Int :=
  ({ st with blocking := b }, 0)

/-- Modelled from the spec: the body of `FileHandleDeviceWakeHelper::sigio` is
not among the sources (only its declaration, FileHandle.h:380); per the spec
it stores the callback. -/
def sigio (st : WakeHelperState) (cb : Bool) : WakeHelperState :=
  { st with sigio_cb := cb }

/-- Modelled from the spec: the receive-relevant wake bits (readable, error,
hangup) of the spec's wake algorithm, step 1.  The declaration comment
(FileHandle.h:440) lists only `POLLIN | POLLERR` for blocking reads; the
spec's step 1 includes hangup as well. -/
def RX_WAKE_EVENTS : Nat := POLLIN ||| POLLERR ||| POLLHUP

/-- Modelled from the spec: the transmit-relevant wake bits (writable, hangup,
error) of the spec's wake algorithm, step 2, matching FileHandle.h:440-441. -/
def TX_WAKE_EVENTS : Nat := POLLOUT ||| POLLHUP ||| POLLERR

/-- Effects of one `wake(events)` call: whether the receive and transmit wait
primitives `_cv_rx` / `_cv_tx` were signalled, and how many times the
registered state-change callback was invoked. -/
structure WakeEffects where
  rx_signaled : Bool
  tx_signaled : Bool
  cb_invocations : Nat

/-- Modelled from the spec: the body of `FileHandleDeviceWakeHelper::wake` is
not among the sources (declaration at FileHandle.h:447).  Per the spec's wake
algorithm it signals the receive wait primitive when `events` intersects the
receive-relevant bits, signals the transmit wait primitive when `events`
intersects the transmit-relevant bits, and, when `events` intersects the armed
single-shot registration `_poll_wake_events`, invokes the registered callback
once and clears exactly the satisfied bits from the registration
(`a ^^^ (a &&& e)` clears from `a` precisely the bits also in `e`). -/
def wake (st : WakeHelperState) (events : Nat) : WakeHelperState × WakeEffects :=
  let rx := (events &&& RX_WAKE_EVENTS) != 0
  let tx := (events &&& TX_WAKE_EVENTS) != 0
  if events &&& st.poll_wake_events ≠ 0 then
    ({ st with poll_wake_events :=
        st.poll_wake_events ^^^ (st.poll_wake_events &&& events) },
      { rx_signaled := rx, tx_signaled := tx,
        cb_invocations := if st.sigio_cb then 1 else 0 })
  else
    (st, { rx_signaled := rx, tx_signaled := tx, cb_invocations := 0 })

/-- Modelled from the spec: the body of
`FileHandleDeviceWakeHelper::poll_with_wake` is not among the sources
(declaration at FileHandle.h:361).  It computes the current mask via the
device's `poll`; if wake is requested and the mask satisfies none of the
requested bits, it merges the requested bits into the single-shot
registration. -/
def poll_with_wake (poll : Nat → Nat) (st : WakeHelperState) (events : Nat)
    (wakeRequested : Bool) : WakeHelperState × Nat :=
  let mask := poll events
  if wakeRequested = true ∧ mask &&& events = 0 then
    ({ st with poll_wake_events := st.poll_wake_events ||| events }, mask)
  else
    (st, mask)

/-- Outcome of one adapter read or write call: the value returned to the
caller, the number of calls made to the underlying non-blocking primitive,
and the number of suspensions on the direction's wait primitive. -/
structure CallTrace where
  result : Int
  calls : Nat
  waits : Nat
  deriving DecidableEq

/-- Modelled from the spec: the body of `FileHandleDeviceWakeHelper::read` is
not among the sources (declaration at FileHandle.h:309).  `attempts` lists the
values that successive calls to the device's `read_nonblocking` would return.
Any value other than `-EAGAIN` — data, 0 at end of file, or a hard error — is
returned immediately after a single call.  On `-EAGAIN`: non-blocking mode
returns the sentinel at once; blocking mode suspends on the receive wait
primitive and retries from the top after the wake.  `none` models a call
still suspended when the supplied attempts run out. -/
def read (blocking : Bool) : List Int → Option CallTrace
  | [] => none
  | a :: rest =>
    if a = -EAGAIN then
      if blocking then
        match read blocking rest with
        | some t => some ⟨t.result, t.calls + 1, t.waits + 1⟩
        | none => none
      else
        some ⟨-EAGAIN, 1, 0⟩
    else
      some ⟨a, 1, 0⟩

/-- Modelled from the spec: the stream-semantics loop of
`FileHandleDeviceWakeHelper::write` (body not among the sources, declaration
at FileHandle.h:323).  Successful counts accumulate in `written` until `size`
is reached.  On `-EAGAIN` in non-blocking mode the call returns the partial
count when anything was written and the sentinel otherwise; in blocking mode
it suspends on the transmit wait primitive and retries, since per the write
contract (FileHandle.h:315) blocking mode returns only once all requested
bytes are accepted or a hard error occurs.  Hard errors propagate
verbatim. -/
def streamWriteLoop (blocking : Bool) (size : Nat) :
    List Int → Nat → Option CallTrace
  | [], _ => none
  | a :: rest, written =>
    if a = -EAGAIN then
      if blocking then
        match streamWriteLoop blocking size rest written with
        | some t => some ⟨t.result, t.calls + 1, t.waits + 1⟩
        | none => none
      else if 0 < written then
        some ⟨(written : Int), 1, 0⟩
      else
        some ⟨-EAGAIN, 1, 0⟩
    else if a < 0 then
      some ⟨a, 1, 0⟩
    else if size ≤ written + a.toNat then
      some ⟨((written + a.toNat : Nat) : Int), 1, 0⟩
    else
      match streamWriteLoop blocking size rest (written + a.toNat) with
      | some t => some ⟨t.result, t.calls + 1, t.waits⟩
      | none => none

/-- Modelled from the spec: the datagram-semantics branch of
`FileHandleDeviceWakeHelper::write` (body not among the sources; its contract
is stated at FileHandle.h:387-402).  At most one effective attempt is made:
when the first attempt reports `-EAGAIN`, non-blocking mode returns the
sentinel directly, while blocking mode suspends once on the transmit wait
primitive and retries the single attempt after waking, returning that retry's
value verbatim. -/
def datagramWrite (blocking : Bool) : List Int → Option CallTrace
  | [] => none
  | a :: rest =>
    if a = -EAGAIN then
      if blocking then
        match rest with
        | [] => none
        | a2 :: _ => some ⟨a2, 2, 1⟩
      else
        some ⟨-EAGAIN, 1, 0⟩
    else
      some ⟨a, 1, 0⟩

/-- Modelled from the spec: `FileHandleDeviceWakeHelper::write` dispatches on
the device's `is_stream()` capability — stream semantics accumulate across
attempts, datagram semantics make a single effective attempt. -/
def write (isStream blocking : Bool) (size : Nat) (attempts : List Int) :
    Option CallTrace :=
  if isStream then streamWriteLoop blocking size attempts 0
  else datagramWrite blocking attempts

end FileHandleDeviceWakeHelper

/-- Masking with a single bit yields either zero or that bit itself. -/
theorem and_pow_two_eq_zero_or_self (x k : Nat) :
    x &&& 2 ^ k = 0 ∨ x &&& 2 ^ k = 2 ^ k := by
  rcases Bool.eq_false_or_eq_true (x.testBit k) with h | h <;>
    simp [Nat.and_two_pow, h]

/-- Nonzero single-bit masking is the same as containing that bit. -/
theorem and_pow_two_bne_zero_iff (x k : Nat) :
    ((x &&& 2 ^ k) != 0) = true ↔ x &&& 2 ^ k = 2 ^ k := by
  rcases and_pow_two_eq_zero_or_self x k with h | h
  · rw [h]
    constructor
    · intro hc
      simp at hc
    · intro hc
      exact absurd hc.symm (pow_pos (show 0 < 2 by norm_num) k).ne'
  · simp [h]

/-- Claim C1: for every handle, modelled by its virtual `poll` function,
`readable()` is true exactly when the mask `poll(POLLIN)` contains the
`POLLIN` bit and `writable()` is true exactly when `poll(POLLOUT)` contains
the `POLLOUT` bit; both are computed purely by masking the respective poll
result, with no other state consulted. -/
theorem readable_writable_iff_poll_bit (poll : Nat → Nat) :
    (FileHandle.readable poll = true ↔ poll POLLIN &&& POLLIN = POLLIN)
    ∧ (FileHandle.writable poll = true ↔ poll POLLOUT &&& POLLOUT = POLLOUT) := by
  have h1 : POLLIN = 2 ^ 0 := rfl
  have h2 : POLLOUT = 2 ^ 2 := rfl
  constructor
  · unfold FileHandle.readable
    rw [h1]
    exact and_pow_two_bne_zero_iff (poll (2 ^ 0)) 0
  · unfold FileHandle.writable
    rw [h2]
    exact and_pow_two_bne_zero_iff (poll (2 ^ 2)) 2

/-- Claim C7: the default `tell()` returns exactly `seek(0, SEEK_CUR)`, and the
default `rewind()` performs `seek(0, SEEK_SET)`, discards the result, and
returns nothing, succeeding unconditionally. -/
theorem tell_rewind_defaults (fh : FileHandleVirtuals) :
    FileHandle.tell fh = fh.seek 0 Whence.seekCur ∧ FileHandle.rewind fh = () :=
  ⟨rfl, rfl⟩

/-- Claim C9: the deprecated `lseek`, `fsync` and `flen` operations forward
exactly to `seek`, `sync` and `size` for every handle and every argument. -/
theorem legacy_forwarders_exact (fh : FileHandleVirtuals) (offset : Int)
    (whence : Whence) :
    FileHandle.lseek fh offset whence = fh.seek offset whence
    ∧ FileHandle.fsync fh = fh.sync
    ∧ FileHandle.flen fh = fh.size :=
  ⟨rfl, rfl, rfl⟩

/-- Claim C10: the base `poll` default returns exactly `POLLIN ||| POLLOUT`
for every requested-events argument, independent of the request, never
contains the error, hangup or invalid bits, and makes `readable()` and
`writable()` always true on a handle using this default. -/
theorem poll_default_always_in_out (events : Nat) :
    FileHandle.poll_default events = POLLIN ||| POLLOUT
    ∧ FileHandle.poll_default events &&& (POLLERR ||| POLLHUP ||| POLLNVAL) = 0
    ∧ FileHandle.readable FileHandle.poll_default = true
    ∧ FileHandle.writable FileHandle.poll_default = true :=
  ⟨rfl, by simp only [FileHandle.poll_default]; decide, by decide, by decide⟩

/-- Claim C6: the adapter's `set_blocking` always returns 0 and stores the
flag, changing nothing else in the adapter state (so only calls that consult
the state later observe it), while the base `FileHandle` default reports
failure with a negative code for every argument. -/
theorem set_blocking_stores_flag (st : WakeHelperState) (b : Bool) :
    (FileHandleDeviceWakeHelper.set_blocking st b).2 = 0
    ∧ (FileHandleDeviceWakeHelper.set_blocking st b).1.blocking = b
    ∧ (FileHandleDeviceWakeHelper.set_blocking st b).1.poll_wake_events
        = st.poll_wake_events
    ∧ (FileHandleDeviceWakeHelper.set_blocking st b).1.sigio_cb = st.sigio_cb
    ∧ FileHandle.set_blocking_default b < 0 :=
  ⟨rfl, rfl, rfl, rfl, by norm_num [FileHandle.set_blocking_default]⟩

/-- Claim C8: a freshly constructed adapter starts in blocking mode with an
empty single-shot wake registration and no registered state-change
callback. -/
theorem construct_initial_state :
    FileHandleDeviceWakeHelper.construct.blocking = true
    ∧ FileHandleDeviceWakeHelper.construct.poll_wake_events = 0
    ∧ FileHandleDeviceWakeHelper.construct.sigio_cb = false :=
  ⟨rfl, rfl, rfl⟩

/-- Claim C4: every `wake(events)` call signals the receive wait primitive
exactly when `events` intersects the receive-relevant bits (readable, error,
hangup) and signals the transmit wait primitive exactly when `events`
intersects the transmit-relevant bits (writable, hangup, error). -/
theorem wake_signals_by_direction (st : WakeHelperState) (events : Nat) :
    ((FileHandleDeviceWakeHelper.wake st events).2.rx_signaled = true
      ↔ events &&& (POLLIN ||| POLLERR ||| POLLHUP) ≠ 0)
    ∧ ((FileHandleDeviceWakeHelper.wake st events).2.tx_signaled = true
      ↔ events &&& (POLLOUT ||| POLLHUP ||| POLLERR) ≠ 0) := by
  unfold FileHandleDeviceWakeHelper.wake
  by_cases h : events &&& st.poll_wake_events ≠ 0 <;>
    simp [h, FileHandleDeviceWakeHelper.RX_WAKE_EVENTS,
      FileHandleDeviceWakeHelper.TX_WAKE_EVENTS, bne_iff_ne]

/-- Claim C3: the single-shot wake registration is an edge trigger.  Arming
bit `2 ^ k` via `poll_with_wake` while the device's poll does not currently
report it, then delivering a wake whose events include that bit, invokes the
registered callback exactly once and leaves the registration equal to the
armed mask with exactly the delivered bits cleared (so unrelated armed bits
stay armed); a second wake of that same bit, with no re-arming, invokes the
callback zero times. -/
theorem wake_registration_single_shot (st : WakeHelperState)
    (poll : Nat → Nat) (k e1 : Nat)
    (hcb : st.sigio_cb = true)
    (hnotset : poll (2 ^ k) &&& 2 ^ k = 0)
    (hincl : 2 ^ k &&& e1 = 2 ^ k) :
    (FileHandleDeviceWakeHelper.wake
        ((FileHandleDeviceWakeHelper.poll_with_wake poll st (2 ^ k) true).1)
        e1).2.cb_invocations = 1
    ∧ (FileHandleDeviceWakeHelper.wake
        ((FileHandleDeviceWakeHelper.poll_with_wake poll st (2 ^ k) true).1)
        e1).1.poll_wake_events
      = (st.poll_wake_events ||| 2 ^ k)
          ^^^ ((st.poll_wake_events ||| 2 ^ k) &&& e1)
    ∧ (FileHandleDeviceWakeHelper.wake
        ((FileHandleDeviceWakeHelper.wake
            ((FileHandleDeviceWakeHelper.poll_with_wake poll st (2 ^ k) true).1)
            e1).1)
        (2 ^ k)).2.cb_invocations = 0 := by
  have he1k : e1.testBit k = true := by
    rcases Bool.eq_false_or_eq_true (e1.testBit k) with ht | hf
    · exact ht
    · rw [Nat.two_pow_and, hf] at hincl
      rw [Bool.toNat_false, Nat.mul_zero] at hincl
      exact absurd hincl.symm (pow_pos (show 0 < 2 by norm_num) k).ne'
  have hst1 : (FileHandleDeviceWakeHelper.poll_with_wake poll st (2 ^ k) true).1
      = { st with poll_wake_events := st.poll_wake_events ||| 2 ^ k } := by
    simp [FileHandleDeviceWakeHelper.poll_with_wake, hnotset]
  have hak : (st.poll_wake_events ||| 2 ^ k).testBit k = true := by
    simp [Nat.testBit_lor, Nat.testBit_two_pow_self]
  have hcond1 : e1 &&& (st.poll_wake_events ||| 2 ^ k) ≠ 0 := by
    intro h0
    have hb : (e1 &&& (st.poll_wake_events ||| 2 ^ k)).testBit k = true := by
      rw [Nat.testBit_land, he1k, hak]
      rfl
    rw [h0] at hb
    simp at hb
  have hw1 : FileHandleDeviceWakeHelper.wake
      { st with poll_wake_events := st.poll_wake_events ||| 2 ^ k } e1
      = ({ st with poll_wake_events :=
            (st.poll_wake_events ||| 2 ^ k)
              ^^^ ((st.poll_wake_events ||| 2 ^ k) &&& e1) },
          { rx_signaled := (e1 &&& FileHandleDeviceWakeHelper.RX_WAKE_EVENTS) != 0,
            tx_signaled := (e1 &&& FileHandleDeviceWakeHelper.TX_WAKE_EVENTS) != 0,
            cb_invocations := 1 }) := by
    simp [FileHandleDeviceWakeHelper.wake, hcond1, hcb]
  have hq : ((st.poll_wake_events ||| 2 ^ k)
      ^^^ ((st.poll_wake_events ||| 2 ^ k) &&& e1)).testBit k = false := by
    simp [Nat.testBit_xor, Nat.testBit_land, hak, he1k]
  refine ⟨?_, ?_, ?_⟩
  · rw [hst1, hw1]
  · rw [hst1, hw1]
  · rw [hst1, hw1]
    simp [FileHandleDeviceWakeHelper.wake, Nat.two_pow_and, hq]

/-- Concrete run of the single-shot edge-trigger theorem: arming `POLLIN`
(bit `2 ^ 0`) on a fresh adapter with a registered callback and an all-idle
device, then waking with `POLLIN ||| POLLERR` (mask 9), fires the callback
once and empties the registration, and a repeated `POLLIN` wake fires
nothing. -/
theorem wake_registration_single_shot_witness :
    ((WakeHelperState.mk true 0 true).sigio_cb = true
      ∧ (fun _ : Nat => 0) (2 ^ 0) &&& 2 ^ 0 = 0
      ∧ 2 ^ 0 &&& 9 = 2 ^ 0)
    ∧ ((FileHandleDeviceWakeHelper.wake
          ((FileHandleDeviceWakeHelper.poll_with_wake (fun _ : Nat => 0)
              (WakeHelperState.mk true 0 true) (2 ^ 0) true).1)
          9).2.cb_invocations = 1
      ∧ (FileHandleDeviceWakeHelper.wake
          ((FileHandleDeviceWakeHelper.poll_with_wake (fun _ : Nat => 0)
              (WakeHelperState.mk true 0 true) (2 ^ 0) true).1)
          9).1.poll_wake_events
        = ((WakeHelperState.mk true 0 true).poll_wake_events ||| 2 ^ 0)
            ^^^ (((WakeHelperState.mk true 0 true).poll_wake_events ||| 2 ^ 0)
                  &&& 9)
      ∧ (FileHandleDeviceWakeHelper.wake
          ((FileHandleDeviceWakeHelper.wake
              ((FileHandleDeviceWakeHelper.poll_with_wake (fun _ : Nat => 0)
                  (WakeHelperState.mk true 0 true) (2 ^ 0) true).1)
              9).1)
          (2 ^ 0)).2.cb_invocations = 0) :=
  ⟨⟨rfl, by decide, by decide⟩,
    wake_registration_single_shot (WakeHelperState.mk true 0 true)
      (fun _ : Nat => 0) 0 9 rfl (by decide) (by decide)⟩

/-- Claim C2: for a datagram device (`is_stream() == false`), each write
request makes one effective attempt: the returned value is a single
`write_nonblocking` result passed through unchanged — byte count, sentinel or
error, with no accumulation — at most one suspend/wake cycle occurs, a cycle
occurs exactly when the first attempt is not-ready in blocking mode, and the
attempt count exceeds the wait count by exactly one (the only extra call
being the initial not-ready attempt that precedes the wait). -/
theorem datagram_write_single_attempt (blocking : Bool) (sz : Nat)
    (a1 a2 : Int) (rest : List Int) :
    ∃ t : FileHandleDeviceWakeHelper.CallTrace,
      FileHandleDeviceWakeHelper.write false blocking sz (a1 :: a2 :: rest)
        = some t
      ∧ t.result = (if blocking = true ∧ a1 = -EAGAIN then a2 else a1)
      ∧ t.calls = t.waits + 1
      ∧ t.waits ≤ 1
      ∧ (t.waits = 1 ↔ (blocking = true ∧ a1 = -EAGAIN)) := by
  cases blocking
  · by_cases h1 : a1 = -EAGAIN
    · refine ⟨⟨-EAGAIN, 1, 0⟩, ?_, ?_, ?_, ?_, ?_⟩ <;>
        simp [FileHandleDeviceWakeHelper.write,
          FileHandleDeviceWakeHelper.datagramWrite, h1]
    · refine ⟨⟨a1, 1, 0⟩, ?_, ?_, ?_, ?_, ?_⟩ <;>
        simp [FileHandleDeviceWakeHelper.write,
          FileHandleDeviceWakeHelper.datagramWrite, h1]
  · by_cases h1 : a1 = -EAGAIN
    · refine ⟨⟨a2, 2, 1⟩, ?_, ?_, ?_, ?_, ?_⟩ <;>
        simp [FileHandleDeviceWakeHelper.write,
          FileHandleDeviceWakeHelper.datagramWrite, h1]
    · refine ⟨⟨a1, 1, 0⟩, ?_, ?_, ?_, ?_, ?_⟩ <;>
        simp [FileHandleDeviceWakeHelper.write,
          FileHandleDeviceWakeHelper.datagramWrite, h1]

/-- Claim C5 counterexample: in non-blocking mode, a stream write whose
second underlying attempt reports the not-ready sentinel returns the
accumulated partial count (here 5 of the requested 10 bytes), not the
sentinel: "if the underlying primitive reports not-ready, the call returns
that sentinel" fails once bytes have already been transferred within the
same call. -/
theorem nonblocking_partial_stream_write_not_sentinel :
    FileHandleDeviceWakeHelper.write true false 10 [5, -EAGAIN]
      = some ⟨5, 2, 0⟩
    ∧ (5 : Int) ≠ -EAGAIN :=
  ⟨by decide, by decide⟩

/-- Claim C5 (amended): in non-blocking mode, whenever the underlying
primitive reports the not-ready sentinel before any bytes have been
transferred, read, datagram write and stream write all return the sentinel
immediately, with exactly one underlying call and no suspension; when a
stream write's primitive reports not-ready after a partial transfer, the
call instead returns the partial count immediately, equally without
suspension and with no further underlying calls. -/
theorem nonblocking_not_ready_immediate (rest : List Int) (sz written : Nat)
    (hw : 0 < written) :
    FileHandleDeviceWakeHelper.read false (-EAGAIN :: rest)
      = some ⟨-EAGAIN, 1, 0⟩
    ∧ FileHandleDeviceWakeHelper.write false false sz (-EAGAIN :: rest)
      = some ⟨-EAGAIN, 1, 0⟩
    ∧ FileHandleDeviceWakeHelper.write true false sz (-EAGAIN :: rest)
      = some ⟨-EAGAIN, 1, 0⟩
    ∧ FileHandleDeviceWakeHelper.streamWriteLoop false sz (-EAGAIN :: rest)
        written = some ⟨(written : Int), 1, 0⟩ := by
  refine ⟨?_, ?_, ?_, ?_⟩ <;>
    simp [FileHandleDeviceWakeHelper.read, FileHandleDeviceWakeHelper.write,
      FileHandleDeviceWakeHelper.streamWriteLoop,
      FileHandleDeviceWakeHelper.datagramWrite, hw]

/-- Concrete run of the amended non-blocking claim: a single not-ready
attempt, request size 9, and a stream loop entered with 3 bytes already
written. -/
theorem nonblocking_not_ready_immediate_witness :
    0 < 3
    ∧ (FileHandleDeviceWakeHelper.read false [-EAGAIN] = some ⟨-EAGAIN, 1, 0⟩
      ∧ FileHandleDeviceWakeHelper.write false false 9 [-EAGAIN]
        = some ⟨-EAGAIN, 1, 0⟩
      ∧ FileHandleDeviceWakeHelper.write true false 9 [-EAGAIN]
        = some ⟨-EAGAIN, 1, 0⟩
      ∧ FileHandleDeviceWakeHelper.streamWriteLoop false 9 [-EAGAIN] 3
        = some ⟨((3 : Nat) : Int), 1, 0⟩) :=
  ⟨by decide, nonblocking_not_ready_immediate [] 9 3 (by decide)⟩

end Mbed
